import Mathlib

/-!
Verification of the Dojo dialog widget (src/dialog/index.ts).

The widget is a class `DialogBase` with four instance fields
(`_wasOpen`, `_callFocus`, `_initialFocusSet`, `_titleId`), caller-supplied
properties, and a render method that (1) detects the open transition and fires
`_onOpen`, (2) updates `_wasOpen`, (3) runs the focus-trap check `_checkFocus`,
(4) computes the close-button text, (5) builds the virtual tree.

The embedding below is a direct translation: props and mutable state become
structures, each private method becomes a function from (props, state, inputs)
to (new state, observable effects). JavaScript `undefined` for optional fields
is `Option.none`; JavaScript truthiness on optional booleans/strings is made
explicit (`Option.getD`, emptiness test). Callbacks (`onOpen`,
`onRequestClose`) are modelled by their presence: the field is `true` when the
caller supplied the callback, and an effect flag records that it was invoked.
The focus collaborator (`this.meta(Focus)`) is modelled by an input boolean
`containsFocus` (the result of `get('main').containsFocus`) and an effect flag
`focusSetCalled` (whether `set('main')` was called this pass).
-/

/-- Caller-supplied properties of the dialog (interface `DialogProperties`).
`closeable` and `closeText` keep their optionality because the code applies
defaults to them (`closeable = true`; falsy `closeText` falls back to the
localized phrase). `modal` is read only truthily, so `Bool` with
default `false` is faithful. `isOpen` embeds the `open` property (`open` is a
Lean keyword); the code reads it truthily and defaults it to `false`.
`onOpen` and `onRequestClose` are `true` when the caller supplied that
callback. -/
structure DialogProperties where
  closeable : Option Bool := none
  closeText : Option String := none
  modal : Bool := false
  onOpen : Bool := false
  onRequestClose : Bool := false
  isOpen : Bool := false
  title : Option String := none
deriving DecidableEq, Repr

/-- The instance-local mutable fields of `DialogBase`:
`_wasOpen : boolean | undefined`, `_callFocus`, `_initialFocusSet`.
(`_titleId` is immutable and irrelevant to the claims.) -/
structure DialogState where
  wasOpen : Option Bool := none
  callFocus : Bool := false
  initialFocusSet : Bool := false
deriving DecidableEq, Repr

/-- Observable effects of one render pass: which collaborator calls happened.
`focusLost` records that the focus-lost branch of `_checkFocus` executed
(its condition `_initialFocusSet && !containsFocus` held);
`closeRequested` records that `_close` was entered from that branch
(a close request, still gated by `closeable`); `onRequestCloseCalled` records
that the caller's `onRequestClose` callback was actually invoked. -/
structure RenderEffects where
  onOpenCalled : Bool := false
  closeRequested : Bool := false
  onRequestCloseCalled : Bool := false
  focusQueried : Bool := false
  focusLost : Bool := false
  focusSetCalled : Bool := false
deriving DecidableEq, Repr

/-- Observable effects of one DOM event handler invocation.
`closeRequested` records that `_close` was entered; `closeCalled` that
`onRequestClose` was actually invoked (i.e. `closeable` and the callback
present). -/
structure EventResult where
  stoppedPropagation : Bool
  closeRequested : Bool
  closeCalled : Bool
deriving DecidableEq, Repr

/-- The effective `closeable` value: `const { closeable = true } = this.properties`. -/
def closeProp (p : DialogProperties) : Bool :=
  p.closeable.getD true

/-- Whether `_close()` invokes the caller's callback:
`closeable && onRequestClose && onRequestClose()`. -/
def closeInvokes (p : DialogProperties) : Bool :=
  closeProp p && p.onRequestClose

/-- Modelled from the spec: `Keys.Escape` from `common/util`, which is not
under src/. The spec only requires a distinguished Escape key code; we take
the DOM legacy keyCode 27. No claim depends on the numeric value, only on
equality with it. -/
def keysEscape : Nat := 27

/-- `_onCloseClick`: stops propagation and calls `_close()`. -/
def onCloseClick (p : DialogProperties) : EventResult :=
  { stoppedPropagation := true
    closeRequested := true
    closeCalled := closeInvokes p }

/-- `_onUnderlayClick`: stops propagation; calls `_close()` only when
`!this.properties.modal`. -/
def onUnderlayClick (p : DialogProperties) : EventResult :=
  { stoppedPropagation := true
    closeRequested := !p.modal
    closeCalled := !p.modal && closeInvokes p }

/-- `_onKeyUp`: stops propagation unconditionally; when `event.which` equals
`Keys.Escape`, calls `_close()`. -/
def onKeyUp (p : DialogProperties) (which : Nat) : EventResult :=
  { stoppedPropagation := true
    closeRequested := decide (which = keysEscape)
    closeCalled := decide (which = keysEscape) && closeInvokes p }

/-- `_checkFocus`: the focus-trap check, run once per render pass.
Returns early when the dialog is not open. Otherwise queries the focus
collaborator (`containsFocus` input); when focus is inside, clears
`_callFocus` and sets `_initialFocusSet`; when focus was acquired at least
once and is now outside, either forces focus back (`modal`) or requests a
close (non-modal); finally, when `_callFocus` is set, imperatively moves
focus onto the main region. -/
def checkFocus (p : DialogProperties) (s : DialogState) (containsFocus : Bool) :
    DialogState × RenderEffects :=
  if !p.isOpen then
    (s, {})
  else
    let s1 := if containsFocus then { s with callFocus := false, initialFocusSet := true } else s
    let lost := s1.initialFocusSet && !containsFocus
    let s2 := if lost && p.modal then { s1 with callFocus := true } else s1
    (s2,
      { closeRequested := lost && !p.modal
        onRequestCloseCalled := lost && !p.modal && closeInvokes p
        focusQueried := true
        focusLost := lost
        focusSetCalled := s2.callFocus })

/-- `_onOpen`: sets `_callFocus = true`, `_initialFocusSet = false`, and
invokes the caller's `onOpen` callback if supplied. The returned boolean is
whether `onOpen` was invoked. -/
def onOpenStep (p : DialogProperties) (s : DialogState) : DialogState × Bool :=
  ({ s with callFocus := true, initialFocusSet := false }, p.onOpen)

/-- The first two statements of `render`:
`open && !this._wasOpen && this._onOpen(); this._wasOpen = open;`.
Truthiness of `_wasOpen : boolean | undefined`: `undefined` and `false`
are both falsy, hence `s.wasOpen.getD false`. -/
def openTransitionStep (p : DialogProperties) (s : DialogState) : DialogState × Bool :=
  if p.isOpen && !(s.wasOpen.getD false) then
    let r := onOpenStep p s
    ({ r.1 with wasOpen := some p.isOpen }, r.2)
  else
    ({ s with wasOpen := some p.isOpen }, false)

/-- JavaScript falsiness of the optional `closeText` string:
`undefined` and the empty string are falsy. -/
def jsFalsyText : Option String → Bool
  | none => true
  | some t => t == ""

/-- The close-button text computed in `render`:
`if (!closeText) closeText = messages.close + " " + title` (template
literal with a single space). `closeMsg` is the localized close phrase
returned by the localization collaborator (`messages.close`). -/
def effectiveCloseText (closeMsg : String) (p : DialogProperties) : String :=
  if jsFalsyText p.closeText then closeMsg ++ " " ++ p.title.getD ""
  else p.closeText.getD ""

/-- The children of the outer container rendered by `render` when `open`:
the `GlobalEvent` child registering the document key-up listener, the
underlay, and the main region; `main` carries the close-button text
(`some text` when `closeable`, `none` when the button is omitted). -/
inductive DialogChild where
  | globalEvent : DialogChild
  | underlay : DialogChild
  | main : Option String → DialogChild
deriving DecidableEq, Repr

/-- `render`: runs the open-transition check, updates `_wasOpen`, runs
`_checkFocus`, computes the close text, and produces the children of the
outer container (`open ? [...] : []`). Returns the new instance state, the
pass's observable effects, and the rendered children. -/
def render (closeMsg : String) (p : DialogProperties) (s : DialogState)
    (containsFocus : Bool) : DialogState × RenderEffects × List DialogChild :=
  let t := openTransitionStep p s
  let c := checkFocus p t.1 containsFocus
  let children :=
    if p.isOpen then
      [DialogChild.globalEvent, DialogChild.underlay,
        DialogChild.main
          (if closeProp p then some (effectiveCloseText closeMsg p) else none)]
    else []
  (c.1, { c.2 with onOpenCalled := t.2 }, children)

/-- A sequence of render passes with fixed properties: each element of the
input list is the `containsFocus` answer observed on that pass; the output
collects each pass's effects. -/
def renderTrace (closeMsg : String) (p : DialogProperties) :
    DialogState → List Bool → List RenderEffects
  | _, [] => []
  | s, cf :: rest =>
    let r := render closeMsg p s cf
    r.2.1 :: renderTrace closeMsg p r.1 rest

/-- An effects record in which the focus-lost branch did not fire:
no close request and no focus-lost detection. -/
def effectInert (fx : RenderEffects) : Bool :=
  !fx.onRequestCloseCalled && !fx.closeRequested && !fx.focusLost

/-! ## Claim theorems -/

/-- Claim C1: in a render pass with `modal=false`, `open=true`, after focus
has been observed inside the main region at least once since the open
transition (`initialFocusSet` is true), if the focus query reports the main
region does not contain focus, the focus-trap check issues a close request:
`_close` is entered, and `onRequestClose` is invoked exactly when gated by
`closeable` (and the callback being supplied). -/
theorem nonModal_focusLost_closes (p : DialogProperties) (s : DialogState)
    (hm : p.modal = false) (ho : p.isOpen = true) (hi : s.initialFocusSet = true) :
    (checkFocus p s false).2.closeRequested = true ∧
    (checkFocus p s false).2.onRequestCloseCalled = (closeProp p && p.onRequestClose) := by
  simp [checkFocus, closeInvokes, hm, ho, hi]

/-- Witness for C1 at a concrete input: a non-modal open dialog with
`closeable=true` and a supplied `onRequestClose`, focus previously acquired,
now lost, invokes the callback. -/
theorem nonModal_focusLost_closes_witness :
    (checkFocus
        ({ isOpen := true, modal := false, closeable := some true,
           onRequestClose := true } : DialogProperties)
        ({ wasOpen := some true, initialFocusSet := true } : DialogState)
        false).2.closeRequested = true ∧
    (checkFocus
        ({ isOpen := true, modal := false, closeable := some true,
           onRequestClose := true } : DialogProperties)
        ({ wasOpen := some true, initialFocusSet := true } : DialogState)
        false).2.onRequestCloseCalled = true := by
  have h := nonModal_focusLost_closes
    ({ isOpen := true, modal := false, closeable := some true,
       onRequestClose := true } : DialogProperties)
    ({ wasOpen := some true, initialFocusSet := true } : DialogState)
    rfl rfl rfl
  exact ⟨h.1, by rw [h.2]; rfl⟩

/-- Claim C2: in a render pass with `modal=true`, `open=true`, after focus
has been observed inside at least once, if the focus query reports focus is
outside the main region, the focus-trap check sets `_callFocus`, imperatively
moves focus back onto the main region in the same pass, and does not invoke
`onRequestClose`. -/
theorem modal_focusLost_recaptures (p : DialogProperties) (s : DialogState)
    (hm : p.modal = true) (ho : p.isOpen = true) (hi : s.initialFocusSet = true) :
    (checkFocus p s false).1.callFocus = true ∧
    (checkFocus p s false).2.focusSetCalled = true ∧
    (checkFocus p s false).2.onRequestCloseCalled = false ∧
    (checkFocus p s false).2.closeRequested = false := by
  simp [checkFocus, hm, ho, hi]

/-- Witness for C2 at a concrete input. -/
theorem modal_focusLost_recaptures_witness :
    (checkFocus
        ({ isOpen := true, modal := true, onRequestClose := true } : DialogProperties)
        ({ wasOpen := some true, initialFocusSet := true } : DialogState)
        false).1.callFocus = true ∧
    (checkFocus
        ({ isOpen := true, modal := true, onRequestClose := true } : DialogProperties)
        ({ wasOpen := some true, initialFocusSet := true } : DialogState)
        false).2.focusSetCalled = true ∧
    (checkFocus
        ({ isOpen := true, modal := true, onRequestClose := true } : DialogProperties)
        ({ wasOpen := some true, initialFocusSet := true } : DialogState)
        false).2.onRequestCloseCalled = false ∧
    (checkFocus
        ({ isOpen := true, modal := true, onRequestClose := true } : DialogProperties)
        ({ wasOpen := some true, initialFocusSet := true } : DialogState)
        false).2.closeRequested = false :=
  modal_focusLost_recaptures
    ({ isOpen := true, modal := true, onRequestClose := true } : DialogProperties)
    ({ wasOpen := some true, initialFocusSet := true } : DialogState)
    rfl rfl rfl

/-- Claim C5: when `closeable` is false, no close-triggering event — close
button, underlay click, any key-up, or the non-modal focus-lost branch —
invokes `onRequestClose`: the close request is a silent no-op. -/
theorem closeable_false_guards (p : DialogProperties) (h : p.closeable = some false) :
    (onCloseClick p).closeCalled = false ∧
    (onUnderlayClick p).closeCalled = false ∧
    (∀ which : Nat, (onKeyUp p which).closeCalled = false) ∧
    (∀ (s : DialogState) (containsFocus : Bool),
      (checkFocus p s containsFocus).2.onRequestCloseCalled = false) := by
  have hc : closeInvokes p = false := by
    simp [closeInvokes, closeProp, h]
  refine ⟨?_, ?_, ?_, ?_⟩
  · simp [onCloseClick, hc]
  · simp [onUnderlayClick, hc]
  · intro which; simp [onKeyUp, hc]
  · intro s containsFocus
    by_cases ho : p.isOpen <;> simp [checkFocus, ho, hc]

/-- Witness for C5 at a concrete input: `closeable = some false`, every
close path, instantiated at the Escape key and at a focus-lost state. -/
theorem closeable_false_guards_witness :
    (onCloseClick ({ closeable := some false, isOpen := true, onRequestClose := true } : DialogProperties)).closeCalled = false ∧
    (onUnderlayClick ({ closeable := some false, isOpen := true, onRequestClose := true } : DialogProperties)).closeCalled = false ∧
    (onKeyUp ({ closeable := some false, isOpen := true, onRequestClose := true } : DialogProperties) 27).closeCalled = false ∧
    (checkFocus ({ closeable := some false, isOpen := true, onRequestClose := true } : DialogProperties)
      ({ wasOpen := some true, initialFocusSet := true } : DialogState)
      false).2.onRequestCloseCalled = false := by
  have h := closeable_false_guards
    ({ closeable := some false, isOpen := true, onRequestClose := true } : DialogProperties) rfl
  exact ⟨h.1, h.2.1, h.2.2.1 27,
    h.2.2.2 ({ wasOpen := some true, initialFocusSet := true } : DialogState) false⟩

/-- Counterexample to claim C6 as stated: the claim says a key-up with a
non-Escape key code has no effect, but `_onKeyUp` calls
`event.stopPropagation()` before inspecting the key code, so a key-up with
code 13 (not Escape) does have an effect: its propagation is stopped. -/
theorem keyUp_nonEscape_still_stops_propagation :
    (onKeyUp ({ isOpen := true, onRequestClose := true } : DialogProperties) 13).stoppedPropagation = true ∧
    13 ≠ keysEscape := by
  constructor
  · rfl
  · decide

/-- Claim C6 (amended): for every key-up event delivered while the dialog is
open, the handler stops propagation regardless of the key code; when the key
code is Escape it additionally issues a close request (entering `_close`,
which invokes `onRequestClose` exactly when gated by `closeable` and the
callback being supplied), regardless of `modal`; any other key code issues no
close request. -/
theorem keyUp_escape_closes (p : DialogProperties) (which : Nat) :
    (onKeyUp p which).stoppedPropagation = true ∧
    (onKeyUp p which).closeRequested = decide (which = keysEscape) ∧
    (onKeyUp p which).closeCalled = (decide (which = keysEscape) && closeProp p && p.onRequestClose) := by
  refine ⟨rfl, rfl, ?_⟩
  simp [onKeyUp, closeInvokes, Bool.and_assoc]

/-- Claim C7: every underlay click stops propagation; it issues a close
request (enters `_close`) exactly when `modal` is false, and the callback
`onRequestClose` is then invoked when gated by `closeable` and presence. -/
theorem underlayClick_nonModal_closes (p : DialogProperties) :
    (onUnderlayClick p).stoppedPropagation = true ∧
    (onUnderlayClick p).closeRequested = !p.modal ∧
    (onUnderlayClick p).closeCalled = (!p.modal && closeProp p && p.onRequestClose) := by
  refine ⟨rfl, rfl, ?_⟩
  simp [onUnderlayClick, closeInvokes, Bool.and_assoc]

/-- Claim C8: when `open` is false, `_checkFocus` returns immediately —
the state is unchanged and no focus query, focus set, close request or
focus-lost detection happens (all effects are at their defaults) — and
`render` produces only the empty outer container: no `GlobalEvent` key
listener, no underlay, no main region. -/
theorem closed_state_inert (closeMsg : String) (p : DialogProperties)
    (s : DialogState) (containsFocus : Bool) (h : p.isOpen = false) :
    checkFocus p s containsFocus = (s, {}) ∧
    (render closeMsg p s containsFocus).2.2 = [] := by
  constructor
  · simp [checkFocus, h]
  · simp [render, h]

/-- Witness for C8 at a concrete input: a closed dialog with non-trivial
state renders no children and leaves the state untouched by the check. -/
theorem closed_state_inert_witness :
    checkFocus ({ isOpen := false, modal := true, onRequestClose := true } : DialogProperties)
      ({ wasOpen := some true, callFocus := true, initialFocusSet := true } : DialogState)
      true
      = (({ wasOpen := some true, callFocus := true, initialFocusSet := true } : DialogState), {}) ∧
    (render "close" ({ isOpen := false, modal := true, onRequestClose := true } : DialogProperties)
      ({ wasOpen := some true, callFocus := true, initialFocusSet := true } : DialogState)
      true).2.2 = [] :=
  closed_state_inert "close"
    ({ isOpen := false, modal := true, onRequestClose := true } : DialogProperties)
    ({ wasOpen := some true, callFocus := true, initialFocusSet := true } : DialogState)
    true rfl

/-- Claim C9: when the caller does not supply `closeText`, the rendered
close control's accessible text is the localized close phrase followed by a
space and the current title. (The close control is rendered when the dialog
is open and `closeable` holds.) -/
theorem default_close_text (closeMsg : String) (p : DialogProperties)
    (s : DialogState) (containsFocus : Bool)
    (hct : p.closeText = none) (ho : p.isOpen = true) (hc : closeProp p = true) :
    (render closeMsg p s containsFocus).2.2 =
      [DialogChild.globalEvent, DialogChild.underlay,
        DialogChild.main (some (closeMsg ++ " " ++ p.title.getD ""))] := by
  simp [render, ho, hc, effectiveCloseText, jsFalsyText, hct]

/-- Witness for C9 at a concrete input: title "Settings", no `closeText`,
localized phrase "close": the close control text is "close Settings". -/
theorem default_close_text_witness :
    (render "close"
      ({ isOpen := true, title := some "Settings", onRequestClose := true } : DialogProperties)
      ({ wasOpen := some true } : DialogState) true).2.2 =
      [DialogChild.globalEvent, DialogChild.underlay,
        DialogChild.main (some ("close" ++ " " ++ (some "Settings").getD ""))] := by
  have h := default_close_text "close"
    ({ isOpen := true, title := some "Settings", onRequestClose := true } : DialogProperties)
    ({ wasOpen := some true } : DialogState) true rfl rfl rfl
  simpa using h

/-- Claim C10: supplying `closeText` as the empty string behaves exactly as
omitting it: the guard is `if (!closeText)`, and the empty string is falsy,
so the entire render pass (state, effects, children) is identical. -/
theorem empty_close_text_is_absent (closeMsg : String) (p : DialogProperties)
    (s : DialogState) (containsFocus : Bool) :
    render closeMsg { p with closeText := some "" } s containsFocus =
      render closeMsg { p with closeText := none } s containsFocus := by
  simp [render, checkFocus, openTransitionStep, onOpenStep, closeProp, closeInvokes,
    effectiveCloseText, jsFalsyText]

/-! ## Helper lemmas for the temporal claims -/

/-- The predicate "this pass invoked the caller's onOpen callback". -/
def onOpenFlag (fx : RenderEffects) : Bool :=
  fx.onOpenCalled

/-- `_checkFocus` never touches `_wasOpen`. -/
theorem checkFocus_preserves_wasOpen (p : DialogProperties) (s : DialogState) (c : Bool) :
    (checkFocus p s c).1.wasOpen = s.wasOpen := by
  cases hc : c <;> cases hi : s.initialFocusSet <;> cases hm : p.modal <;>
    cases ho : p.isOpen <;> simp [checkFocus, hc, hi, hm, ho]

/-- After any render pass, `_wasOpen` equals the `open` value of that pass. -/
theorem render_wasOpen (m : String) (p : DialogProperties) (s : DialogState) (c : Bool) :
    (render m p s c).1.wasOpen = some p.isOpen := by
  show (checkFocus p (openTransitionStep p s).1 c).1.wasOpen = some p.isOpen
  rw [checkFocus_preserves_wasOpen]
  unfold openTransitionStep
  split <;> rfl

/-- Characterization of the onOpen effect of a single render pass:
the callback fires exactly on the open transition with the callback supplied. -/
theorem render_onOpenCalled (m : String) (p : DialogProperties) (s : DialogState) (c : Bool) :
    (render m p s c).2.1.onOpenCalled = (p.isOpen && !(s.wasOpen.getD false) && p.onOpen) := by
  show (openTransitionStep p s).2 = _
  unfold openTransitionStep onOpenStep
  by_cases h : (p.isOpen && !(s.wasOpen.getD false)) = true <;> simp [h]

/-- Once `_wasOpen` already records the current `open` value, no pass of a
constant-`open` trace fires `onOpen`. -/
theorem renderTrace_onOpen_zero (m : String) (p : DialogProperties) :
    ∀ (cs : List Bool) (s : DialogState), s.wasOpen = some p.isOpen →
      (renderTrace m p s cs).countP onOpenFlag = 0
  | [], _, _ => rfl
  | c :: cs, s, h => by
    have h1 : onOpenFlag (render m p s c).2.1 = false := by
      unfold onOpenFlag
      rw [render_onOpenCalled]
      simp [h]
    have h2 := renderTrace_onOpen_zero m p cs (render m p s c).1 (render_wasOpen m p s c)
    simp [renderTrace, List.countP_cons, h1, h2]

/-- The open transition never leaves `_initialFocusSet` true when it was
false before the pass. -/
theorem openTransitionStep_keeps_unfocused (p : DialogProperties) (s : DialogState)
    (h : s.initialFocusSet = false) :
    (openTransitionStep p s).1.initialFocusSet = false := by
  unfold openTransitionStep onOpenStep
  split <;> simp [h]

/-- When focus is reported outside and was never acquired, `_checkFocus`
keeps `_initialFocusSet` false and its focus-lost branch does not fire. -/
theorem checkFocus_unfocused_inert (p : DialogProperties) (s : DialogState)
    (h : s.initialFocusSet = false) :
    (checkFocus p s false).1.initialFocusSet = false ∧
    effectInert (checkFocus p s false).2 = true := by
  by_cases ho : p.isOpen <;> simp [checkFocus, effectInert, ho, h]

/-- Claim C3: `onOpen` is invoked exactly on the open transition (current
`open` true, previously false or undefined) when the callback is supplied;
that transition sets `_callFocus := true` and `_initialFocusSet := false`
in the state that the same pass hands to the focus-trap check; `_wasOpen`
is updated to the current `open` on every pass; and along any trace of
renders with fixed properties, `onOpen` fires at most once. -/
theorem onOpen_edge_exactly_once (m : String) (p : DialogProperties) (s : DialogState)
    (c : Bool) (hcb : p.onOpen = true) :
    ((render m p s c).2.1.onOpenCalled = (p.isOpen && !(s.wasOpen.getD false))) ∧
    (p.isOpen = true → s.wasOpen.getD false = false →
      (openTransitionStep p s).1.callFocus = true ∧
      (openTransitionStep p s).1.initialFocusSet = false) ∧
    ((render m p s c).1.wasOpen = some p.isOpen) ∧
    (∀ cs : List Bool, (renderTrace m p s cs).countP onOpenFlag ≤ 1) := by
  refine ⟨?_, ?_, render_wasOpen m p s c, ?_⟩
  · rw [render_onOpenCalled]
    simp [hcb]
  · intro ho hw
    simp [openTransitionStep, onOpenStep, ho, hw]
  · intro cs
    cases cs with
    | nil => simp [renderTrace]
    | cons c0 rest =>
      have hz := renderTrace_onOpen_zero m p rest (render m p s c0).1 (render_wasOpen m p s c0)
      simp [renderTrace, List.countP_cons, hz, onOpenFlag]
      split <;> simp

/-- Witness for C3 at a concrete input: fresh instance (`_wasOpen`
undefined), `open=true`, callback supplied — `onOpen` fires on the first
pass, and over a two-pass trace it fires at most once. -/
theorem onOpen_edge_exactly_once_witness :
    (render "close" ({ isOpen := true, onOpen := true } : DialogProperties)
      ({} : DialogState) true).2.1.onOpenCalled = true ∧
    (renderTrace "close" ({ isOpen := true, onOpen := true } : DialogProperties)
      ({} : DialogState) [true, true]).countP onOpenFlag ≤ 1 := by
  have h := onOpen_edge_exactly_once "close"
    ({ isOpen := true, onOpen := true } : DialogProperties) ({} : DialogState) true rfl
  refine ⟨?_, h.2.2.2 [true, true]⟩
  rw [h.1]
  rfl

/-- Claim C4: after an open transition, along any trace of render passes in
which the focus query never reports the main region as containing focus
(`_initialFocusSet` starts false and every pass observes focus outside),
the focus-lost branch never fires: no close request and no focus-lost
recapture arise from it on any pass. -/
theorem focus_never_acquired_never_fires (m : String) (p : DialogProperties) :
    ∀ (cs : List Bool) (s : DialogState), s.initialFocusSet = false →
      (∀ c ∈ cs, c = false) →
      (renderTrace m p s cs).all effectInert = true
  | [], _, _, _ => rfl
  | c :: cs, s, h, hcs => by
    have hc : c = false := hcs c (List.mem_cons_self c cs)
    subst hc
    have h1 := openTransitionStep_keeps_unfocused p s h
    have h2 := checkFocus_unfocused_inert p (openTransitionStep p s).1 h1
    have hstate : (render m p s false).1.initialFocusSet = false := h2.1
    have hfx : effectInert (render m p s false).2.1 = true := by
      have h3 := h2.2
      simp [effectInert] at h3 ⊢
      exact h3
    have hrest := focus_never_acquired_never_fires m p cs (render m p s false).1 hstate
      (fun x hx => hcs x (List.mem_cons_of_mem _ hx))
    simp [renderTrace, List.all_cons, hfx, hrest]

/-- Witness for C4 at a concrete input: a non-modal open dialog with the
callback supplied, fresh open-transition state, two passes with focus
outside — no close request and no focus-lost recapture on either pass. -/
theorem focus_never_acquired_never_fires_witness :
    (renderTrace "close"
      ({ isOpen := true, modal := false, onRequestClose := true } : DialogProperties)
      ({} : DialogState) [false, false]).all effectInert = true :=
  focus_never_acquired_never_fires "close"
    ({ isOpen := true, modal := false, onRequestClose := true } : DialogProperties)
    [false, false] ({} : DialogState) rfl (by decide)
